import Mathlib

/-!
Shallow embedding of the `frozen` package (decorators `freezable`, `lockable`,
`alienatable` plus shared machinery in `core.py`): the capability resolver,
argument tailoring and the class-wrapper constructor chain, the lockable
permission tables, the view proxy guards, the execution-tracer cache, and the
call-frame classifier search.
-/

deriving instance DecidableEq for Except

namespace Frozen

/-- A Python class, identified by a numeric id together with its method
resolution order (the ids of itself and all its ancestors, itself included). -/
structure Cls where
  id : Nat
  mro : List Nat
  deriving DecidableEq, Repr

/-- Embedding of Python `issubclass(a, b)`: `b` is `a` itself or one of `a`'s
ancestors. -/
def issubclass (a b : Cls) : Bool :=
  b.id ∈ a.mro

/-- Sample class `Admin` used in concrete scenarios. -/
def Admin : Cls := ⟨0, [0]⟩

/-- Sample class `Guest`, unrelated to the others. -/
def Guest : Cls := ⟨1, [1]⟩

/-- Sample class `Account` (the user class being decorated). -/
def Account : Cls := ⟨2, [2]⟩

/-!
Capability resolver: `is_calling_class_valid` from `core.py`.

The execution trace is embedded as the list of classification outcomes of the
stack frames (innermost first, after the skipped frames): `none` for a frame
whose declaring class could not be classified, `some c` for a frame classified
as declared on class `c`.
-/

/-- Embedding of `is_calling_class_valid` (core.py). The source consumes a
single element of the trace generator via `next(...)`, i.e. it inspects only
the first frame, classified or not. An empty trace cannot occur in the source
(the stack is never empty); it is mapped to the deny outcome. -/
def is_calling_class_valid (allowed_classes : List Cls) (trace : List (Option Cls)) :
    Bool × Option Cls :=
  match trace.headD none with
  | none => (false, none)
  | some cls => (allowed_classes.any fun c => issubclass cls c, some cls)

/-- Modelled from the spec: the variant of the capability resolver that the
spec describes, which consults the first frame whose classified declaring type
is non-null (skipping unclassifiable frames). Used only to compare the spec's
words against the source behavior. -/
def is_calling_class_valid_specFirstClassified (allowed_classes : List Cls)
    (trace : List (Option Cls)) : Bool × Option Cls :=
  match trace.findSome? id with
  | none => (false, none)
  | some cls => (allowed_classes.any fun c => issubclass cls c, some cls)

/-!
Errors and state for the lockable / freezable aspects.
-/

/-- Python-level exceptions raised by the embedded code paths. -/
inductive PyErr where
  | valueError (msg : String)
  | keyError (key : String)
  | typeError (msg : String)
  | lockError (key : String) (callingCls : Cls)
  | unlockError (key : String) (callingCls : Cls)
  | lockedError (key : String)
  | frozenError
  | permissionError (msg : String)
  | attributeError (msg : String)
  deriving DecidableEq, Repr

/-- A permission table: the keys present in the `defaultdict` together with
their authorized class sets. An absent key means the Python default `None`
(no restriction recorded for that key). -/
abbrev PermTable := List (String × List Cls)

/-- Lookup in a permission table; `none` is the `defaultdict` default. -/
def lookupPerm (t : PermTable) (k : String) : Option (List Cls) :=
  (t.find? fun p => p.1 = k).map (·.2)

/-- Set-style insertion into a list of classes (Python `set.add`). -/
def addClsSet (s : List Cls) (c : Cls) : List Cls :=
  if s.contains c then s else s ++ [c]

/-- Set-style union of two key lists (Python `set.update`). -/
def keysUnion (a b : List String) : List String :=
  a ++ b.filter fun k => ¬ a.contains k

/-- Set-style insertion of a key (Python `set.add` on `__locks__`). -/
def keyAdd (s : List String) (k : String) : List String :=
  if s.contains k then s else s ++ [k]

/-- Embedding of `LockableClassDecorator` state after `__init__`: the declared
lock keys and both permission tables. -/
structure LockableClassDecorator where
  locks : List String
  lock_permissions : PermTable
  unlock_permissions : PermTable
  deriving DecidableEq, Repr

/-- Embedding of `LockableClassDecorator.__init__` (lockable.py). Inputs are
the two optional permission dictionaries, each mapping a key to an optional
set of classes (`none` meaning the Python value `None`). With no
`lock_permissions` a `ValueError` is raised; with no `unlock_permissions` the
unlock table defaults to the lock table. Keys mapped to `None` contribute to
`locks` but are filtered out of the tables. -/
def LockableClassDecorator.init
    (lock_permissions : Option (List (String × Option (List Cls))))
    (unlock_permissions : Option (List (String × Option (List Cls)))) :
    Except PyErr LockableClassDecorator :=
  match lock_permissions with
  | none => .error (.valueError "NoLocksDefined")
  | some lp =>
    let locks := lp.map (·.1)
    let lockP : PermTable := lp.filterMap fun kv => kv.2.map fun v => (kv.1, v)
    match unlock_permissions with
    | none => .ok ⟨locks, lockP, lockP⟩
    | some up =>
      let locks2 := keysUnion locks (up.map (·.1))
      let unlockP : PermTable := up.filterMap fun kv => kv.2.map fun v => (kv.1, v)
      .ok ⟨locks2, lockP, unlockP⟩

/-- Embedding of `LockableClassDecoratorData`: the per-wrapper permission data
attached to a composed `LockableWrapper` class. -/
structure LockableClassDecoratorData where
  locks : List String
  lock_permissions : PermTable
  unlock_permissions : PermTable
  deriving DecidableEq, Repr

/-- Embedding of `LockableClassDecoratorData.__init__` (lockable.py).
`methodKeys` collects the keys of the decorator's `method_specs`;
`oldWrapper` is the decorator data of a previous `Lockable` wrapper found in
the ancestry of `cls` (`none` when `cls` is not already `Lockable`). The
decorated class `cls` is added to every declared permission set; a previous
wrapper's tables contribute only the keys not already present in the new
tables, and its key set is unioned in. -/
def LockableClassDecoratorData.init (decorator : LockableClassDecorator)
    (cls : Cls) (methodKeys : List String)
    (oldWrapper : Option LockableClassDecoratorData) : LockableClassDecoratorData :=
  let locks := keysUnion decorator.locks methodKeys
  let lockP := decorator.lock_permissions.map fun kv => (kv.1, addClsSet kv.2 cls)
  let unlockP := decorator.unlock_permissions.map fun kv => (kv.1, addClsSet kv.2 cls)
  match oldWrapper with
  | none => ⟨locks, lockP, unlockP⟩
  | some old =>
    ⟨keysUnion locks old.locks,
     lockP ++ old.lock_permissions.filter fun kv => (lookupPerm lockP kv.1).isNone,
     unlockP ++ old.unlock_permissions.filter fun kv => (lookupPerm unlockP kv.1).isNone⟩

/-- Modelled from the spec: the permission-table merge the round-trip sentence
describes, in which the resulting table is, for every key, the union of the
authorized sets declared by both decorations. Used only to compare the spec's
words against the source behavior. -/
def mergePermissionsSpecUnion (newT oldT : PermTable) : PermTable :=
  (newT.map fun kv =>
    (kv.1, match lookupPerm oldT kv.1 with
           | none => kv.2
           | some s => kv.2 ++ s.filter fun c => ¬ kv.2.contains c))
  ++ oldT.filter fun kv => (lookupPerm newT kv.1).isNone

/-- A friend table of the alienatable aspect: keys are optional friend-group
names (`none` embeds the Python key `None`), values the declared friend
classes. -/
abbrev FriendTable := List (Option String × List Cls)

/-- Embedding of `AlienatableClassDecoratorData.__init__` (alienatable.py).
The decorator's friend values are frozensets; when `cls` is already wrapped by
the alienatable aspect, the merge loop evaluates
`self.friends[key].update(cls_set)` for each previous entry, and `frozenset`
has no `update`, so the merge raises `AttributeError` as soon as the previous
wrapper declares any entry (the `is None` guard never fires because the
defaultdict default is an empty frozenset, not `None`). -/
def AlienatableClassDecoratorData.init (decFriends : FriendTable)
    (oldWrapper : Option FriendTable) : Except PyErr FriendTable :=
  match oldWrapper with
  | none => .ok decFriends
  | some [] => .ok decFriends
  | some (_ :: _) => .error (.attributeError "frozenset object has no attribute update")

/-- Embedding of the subscript expression `calling_classes[0]` on the deny
path of `lock`/`unlock`: `calling_classes` holds a class or `None`; `None` is
not subscriptable and the modelled classes define no `__class_getitem__`, so
the expression raises a `TypeError` either way. -/
def subscriptClassAt0 (callingClass : Option Cls) : Except PyErr Cls :=
  match callingClass with
  | none => .error (.typeError "NoneType object is not subscriptable")
  | some _ => .error (.typeError "type object is not subscriptable")

/-- Embedding of `LockableWrapper.lock` (lockable.py), acting on the instance
lock set `locks`; `trace` is the classification of the caller's stack. -/
def LockableWrapper.lock (data : LockableClassDecoratorData) (locks : List String)
    (key : String) (trace : List (Option Cls)) : Except PyErr (List String) :=
  if data.locks.contains key then
    match lookupPerm data.lock_permissions key with
    | none => .ok (keyAdd locks key)
    | some allowed =>
      let r := is_calling_class_valid allowed trace
      if r.1 then .ok (keyAdd locks key)
      else do
        let c ← subscriptClassAt0 r.2
        .error (.lockError key c)
  else .error (.keyError key)

/-- Embedding of `LockableWrapper.unlock` (lockable.py). On the unrestricted
path the bare `set.remove` raises `KeyError` when the key is not held; on the
authorized path the `KeyError` is swallowed by the source's `try`/`except`. -/
def LockableWrapper.unlock (data : LockableClassDecoratorData) (locks : List String)
    (key : String) (trace : List (Option Cls)) : Except PyErr (List String) :=
  if data.locks.contains key then
    match lookupPerm data.unlock_permissions key with
    | none =>
      if locks.contains key then .ok (locks.erase key)
      else .error (.keyError key)
    | some allowed =>
      let r := is_calling_class_valid allowed trace
      if r.1 then .ok (locks.erase key)
      else do
        let c ← subscriptClassAt0 r.2
        .error (.unlockError key c)
  else .error (.keyError key)

/-- Embedding of `LockableWrapper.locked` (lockable.py). -/
def LockableWrapper.locked (data : LockableClassDecoratorData) (locks : List String)
    (key : String) : Except PyErr Bool :=
  if data.locks.contains key then .ok (locks.contains key)
  else .error (.keyError key)

/-!
View guards: `locked_in_view` (core.py) and the freezable view flag.
-/

/-- How a guarded method is reached: directly on the wrapped instance, or
through a `View` proxy (whose `__getattribute__` rebinds the method so that
the proxy itself becomes the receiver). -/
inductive Receiver where
  | direct
  | view
  deriving DecidableEq, Repr

/-- Embedding of `locked_in_view` (core.py): the wrapper raises a
`PermissionError` when the receiver is a `View`, and forwards to the wrapped
method otherwise. -/
def locked_in_view {σ : Type} (method : σ → Except PyErr σ)
    (recv : Receiver) (s : σ) : Except PyErr σ :=
  match recv with
  | .view => .error (.permissionError "ViewMethodNotCallable")
  | .direct => method s

/-- Runs a state-mutating operation Python-style: on success the instance
state is replaced, and a raised exception leaves the state as it was. -/
def runMutation {σ : Type} (op : σ → Except PyErr σ) (s : σ) : σ × Option PyErr :=
  match op s with
  | .ok s2 => (s2, none)
  | .error e => (s, some e)

/-- Per-instance state of the freezable aspect. -/
structure FreezableState where
  frozen : Bool
  deriving DecidableEq, Repr

/-- Attribute lookup of `__frozen__` on a receiver: `Freezable.View` declares
the class attribute `__frozen__ = True`, so a view reports frozen regardless
of the underlying instance; a direct receiver reads the instance flag. -/
def getattr_frozen (recv : Receiver) (s : FreezableState) : Bool :=
  match recv with
  | .view => true
  | .direct => s.frozen

/-- Embedding of `freezable_wrapper` (FreezableMethodDecorator.__call__,
freezable.py): the guard reads `obj.__frozen__` and raises `FrozenError` when
it is set, else forwards to the wrapped method. -/
def freezable_wrapper {α : Type} (method : FreezableState → Except PyErr α)
    (recv : Receiver) (s : FreezableState) : Except PyErr α :=
  if getattr_frozen recv s then .error .frozenError else method s

/-!
Argument tailoring (`tailor_arguments`, core.py) and the composed constructor
chain (`ClassWrapperBase.__init__`, core.py).
-/

/-- The portion of `inspect.getfullargspec` that argument tailoring reads:
the positional-or-keyword parameter names in declaration order (the bound
first parameter, `self`, included at slot 0), the keyword-only names, and
whether the callable declares a `**kwargs` catch-all. -/
structure FullArgSpec where
  args : List String
  kwonlyargs : List String
  varkw : Bool
  deriving DecidableEq, Repr

/-- Keyword arguments are embedded as the list of their names: which callable
receives which argument never depends on the values. -/
abbrev Kwargs := List String

/-- Python `dict.update`: the keys of `b` are merged into `a` (an existing
key keeps its position, its value being overwritten). -/
def dictUpdate (a b : Kwargs) : Kwargs :=
  a ++ b.filter fun k => ¬ a.contains k

/-- Embedding of the `intended_kwargs` computation of `tailor_arguments`
(core.py): all of `kwargs` when the intended method declares `**kwargs`, else
the keys of `kwargs` among `intended_spec.args[len(args):]` (the parameter
names not filled positionally, the bound first parameter occupying slot 0)
plus the keyword-only names. -/
def tailor_intended_kwargs (intended : FullArgSpec) (nargs : Nat)
    (kwargs : Kwargs) : Kwargs :=
  if intended.varkw then kwargs
  else (intended.args.drop nargs ++ intended.kwonlyargs).filter fun k => kwargs.contains k

/-- Embedding of the `kwargs.update(dict(zip(intended_spec.args[ignore:], args)))`
mutation inside `tailor_arguments`: the first `nargs` intended parameter names
after the ignored ones are merged into the keyword dictionary, which the
caller then passes on. -/
def updatedKwargs (intended : FullArgSpec) (ignoreIntended nargs : Nat)
    (kwargs : Kwargs) : Kwargs :=
  dictUpdate kwargs ((intended.args.drop ignoreIntended).take nargs)

/-- Embedding of the `augmented_kwargs` computation of `tailor_arguments`,
evaluated on the updated keyword dictionary. -/
def tailor_augmented_kwargs (augmented : FullArgSpec) (ignoreAugmented : Nat)
    (updated : Kwargs) : Kwargs :=
  if augmented.varkw then updated
  else (augmented.args.drop ignoreAugmented ++ augmented.kwonlyargs).filter
    fun k => updated.contains k

/-- Models Python's binding of a call `f(self, *args, **kwargs)` against the
declared signature `spec`: rejects an argument that arrives both positionally
and by keyword (`got multiple values for argument`) and, absent a `**kwargs`
catch-all, a keyword not among the declared names (`unexpected keyword
argument`). Defaults and missing-argument errors are not consulted by any
code path modelled here. -/
def callBinds (spec : FullArgSpec) (nargs : Nat) (kwargs : Kwargs) :
    Except PyErr Unit :=
  if ((spec.args.drop 1).take nargs).any (fun p => kwargs.contains p) then
    .error (.typeError "got multiple values for argument")
  else if !spec.varkw && kwargs.any (fun k => !((spec.args ++ spec.kwonlyargs).contains k)) then
    .error (.typeError "unexpected keyword argument")
  else .ok ()

/-- One observable step of wrapper construction: an aspect's `__load__` call,
tagged with the aspect and the keyword names it receives, or the user
constructor call with its positional count and keyword names. -/
inductive InitEvent where
  | load (aspect : Nat) (kwargs : Kwargs)
  | userCtor (nargs : Nat) (kwargs : Kwargs)
  deriving DecidableEq, Repr

/-- Recognizes the user-constructor event. -/
def isUserCtorEvent : InitEvent → Bool
  | .userCtor _ _ => true
  | .load _ _ => false

/-- The aspect tag of a load event. -/
def loadTag : InitEvent → Option Nat
  | .load t _ => some t
  | .userCtor _ _ => none

/-- An aspect in a wrapper stack: an identifying tag and the `FullArgSpec` of
its `__load__` step. -/
structure Aspect where
  tag : Nat
  load_spec : FullArgSpec
  deriving DecidableEq, Repr

/-- Embedding of the composed constructor chain (`ClassWrapperBase.__init__`,
core.py). `aspects` lists the wrapper stack outermost first. At each level the
source tailors the combined arguments against the decorated class's
`__init__` (`userSpec`, identical at every level because `__cls__` always
names the original decorated class) and this level's `__load__`; it runs the
load step and then delegates: to the next wrapper with the full, by now
mutated, keyword dictionary, or, at the innermost level
(`wrapped_cls == decorated_cls`), to the user constructor with the tailored
intended keywords. The result is the sequence of load and constructor calls,
or the first `TypeError` Python raises while binding a call. -/
def wrapperInitChain (userSpec : FullArgSpec) :
    List Aspect → Nat → Kwargs → Except PyErr (List InitEvent)
  | [], nargs, kwargs =>
    match callBinds userSpec nargs kwargs with
    | .error e => .error e
    | .ok _ => .ok [.userCtor nargs kwargs]
  | a :: rest, nargs, kwargs =>
    let intendedKw := tailor_intended_kwargs userSpec nargs kwargs
    let kwargs2 := updatedKwargs userSpec 1 nargs kwargs
    let augKw := tailor_augmented_kwargs a.load_spec 1 kwargs2
    match callBinds a.load_spec 0 augKw with
    | .error e => .error e
    | .ok _ =>
      match rest with
      | [] =>
        match callBinds userSpec nargs intendedKw with
        | .error e => .error e
        | .ok _ => .ok [.load a.tag augKw, .userCtor nargs intendedKw]
      | b :: rest2 =>
        match wrapperInitChain userSpec (b :: rest2) nargs kwargs2 with
        | .error e => .error e
        | .ok inner => .ok (.load a.tag augKw :: inner)

/-!
Execution-tracer classification cache (`ExecutionTracer`, core.py).
-/

/-- A weak reference: `some` while the referent is alive, `none` once the
referent has been garbage collected. -/
abbrev Weak (α : Type) := Option α

/-- A value stored in one of the tracer's cache dictionaries: the source
stores either Python `None`, for a code object classified as unresolved, or a
weak reference to the resolved method / class. -/
abbrev CacheEntry (α : Type) := Option (Weak α)

/-- An association list standing for one of the cache dictionaries, keyed by
`id(code)`. -/
abbrev CacheDict (α : Type) := List (Nat × CacheEntry α)

/-- Dictionary read: `none` embeds a missing key (Python `KeyError`). -/
def cacheLookup {α : Type} (d : CacheDict α) (code : Nat) : Option (CacheEntry α) :=
  (d.find? fun p => p.1 = code).map (·.2)

/-- Dictionary assignment: overwrite the existing key or append a new one. -/
def cacheInsert {α : Type} : CacheDict α → Nat → CacheEntry α → CacheDict α
  | [], code, e => [(code, e)]
  | p :: rest, code, e =>
    if p.1 = code then (code, e) :: rest else p :: cacheInsert rest code e

/-- The two cache dictionaries of `ExecutionTracer` (`code_method_cache` and
`code_location_cache`), over method type `M` and declaring-class type `L`. -/
structure TracerCache (M L : Type) where
  code_method_cache : CacheDict M
  code_location_cache : CacheDict L
  deriving DecidableEq, Repr

/-- Embedding of `ExecutionTracer._get_code_info_from_cache` (core.py): a
missing key in either dictionary raises `KeyError`; a stored `None` stands for
a cached unresolved classification; a stored weak reference is dereferenced,
and a dead referent raises `KeyError` so the caller reclassifies. -/
def get_code_info_from_cache {M L : Type} (c : TracerCache M L) (code : Nat) :
    Except Unit (Option M × Option L) :=
  match cacheLookup c.code_method_cache code, cacheLookup c.code_location_cache code with
  | none, _ => .error ()
  | some _, none => .error ()
  | some method_ref, some location_ref =>
    match method_ref with
    | none =>
      match location_ref with
      | none => .ok (none, none)
      | some (some l) => .ok (none, some l)
      | some none => .error ()
    | some none => .error ()
    | some (some m) =>
      match location_ref with
      | none => .ok (some m, none)
      | some (some l) => .ok (some m, some l)
      | some none => .error ()

/-- Embedding of `ExecutionTracer._update_code_info_cache` (core.py): a
`None` method stores `None` in both dictionaries (the location entry is keyed
on `method is None` in the source); otherwise both dictionaries receive fresh,
alive references. Whenever `method` is non-`None` the source's `location` is
non-`None` as well, `_get_code_info` returning either both or neither. -/
def update_code_info_cache {M L : Type} (c : TracerCache M L) (code : Nat)
    (method : Option M) (location : Option L) : TracerCache M L :=
  ⟨cacheInsert c.code_method_cache code (method.map some),
   cacheInsert c.code_location_cache code
     (match method with
      | none => none
      | some _ => location.map some)⟩

/-- One frame's step of `ExecutionTracer.__call__` (core.py): serve the
classification from the cache, or, on `KeyError`, classify with
`_get_code_info` (abstracted as the ground-truth function `classify`) and
record the result. -/
def tracerStep {M L : Type} (classify : Nat → Option (M × L))
    (c : TracerCache M L) (code : Nat) :
    (Option M × Option L) × TracerCache M L :=
  match get_code_info_from_cache c code with
  | .ok r => (r, c)
  | .error _ =>
    let r := classify code
    ((r.map (·.1), r.map (·.2)),
     update_code_info_cache c code (r.map (·.1)) (r.map (·.2)))

/-- Garbage collection of one cache entry: a live weak reference loses its
referent; a stored `None` marker and a missing key are unaffected. -/
def weakKill {α : Type} : CacheEntry α → CacheEntry α
  | some (some _) => some none
  | e => e

/-- Garbage collection of the referents cached for `code` in both
dictionaries. -/
def killCode {M L : Type} (c : TracerCache M L) (code : Nat) : TracerCache M L :=
  ⟨c.code_method_cache.map fun p => if p.1 = code then (p.1, weakKill p.2) else p,
   c.code_location_cache.map fun p => if p.1 = code then (p.1, weakKill p.2) else p⟩

/-!
Call-frame classifier (`ExecutionTracer._get_code_info`, core.py).
-/

/-- A Python function or method as the classifier sees it: its `__name__`,
the identity of its `__code__` object, and its `__closure__`: Python `None`
when the function captures nothing, else a tuple of cells whose contents may
(`some`) or may not (`none`) be functions. -/
inductive PyFunc : Type where
  | mk (name : String) (codeId : Nat) (closure : Option (List (Option PyFunc)))

/-- The `__name__` of a function. -/
def PyFunc.name : PyFunc → String
  | .mk n _ _ => n

/-- The identity of the `__code__` object of a function. -/
def PyFunc.codeId : PyFunc → Nat
  | .mk _ c _ => c

/-- The `__closure__` of a function. -/
def PyFunc.closure : PyFunc → Option (List (Option PyFunc))
  | .mk _ _ cl => cl

/-- A class as the classifier sees it: an id, the members `get_members`
yields superficially (own `__dict__`) and the further members a full `dir()`
walk adds (inherited), and the registered subclasses. The hierarchy is
modelled as a tree, on which the source's `visited` set never skips
anything. -/
inductive ClsT : Type where
  | mk (id : Nat) (ownMembers : List (String × PyFunc))
      (inheritedMembers : List (String × PyFunc)) (subclasses : List ClsT)

/-- The id of a modelled class. -/
def ClsT.id : ClsT → Nat
  | .mk i _ _ _ => i

/-- Embedding of `get_members` (core.py) as the classifier consumes it: the
own members only when `superficial`, else own plus inherited members. -/
def ClsT.members : ClsT → Bool → List (String × PyFunc)
  | .mk _ own _ _, true => own
  | .mk _ own inh _, false => own ++ inh

/-- The name and code identity of the frame's code object
(`code.co_name`, `code`). -/
structure CodeRef where
  name : String
  id : Nat

mutual

/-- Embedding of the inner `search_closure` of `_get_code_info` (core.py),
split over the cell list. Iterating a `None` closure raises `TypeError`
(`for cell in closure` with `closure = None`); the first cell holding a
function with the sought name decides: a code match returns it, otherwise the
search recurses into that function's own closure. -/
def search_closure (mtdName : String) (code : Nat) :
    Option (List (Option PyFunc)) → Except PyErr (Option PyFunc)
  | none => .error (.typeError "argument of type NoneType is not iterable")
  | some cells => search_cells mtdName code cells

/-- The cell-by-cell loop of `search_closure`. -/
def search_cells (mtdName : String) (code : Nat) :
    List (Option PyFunc) → Except PyErr (Option PyFunc)
  | [] => .ok none
  | none :: rest => search_cells mtdName code rest
  | some (.mk nm cid cl) :: rest =>
    if nm = mtdName then
      if code = cid then .ok (some (.mk nm cid cl))
      else search_closure mtdName code cl
    else search_cells mtdName code rest

end

mutual

/-- Embedding of the `search_locations` loop of `_get_code_info` (core.py):
candidate classes are searched in order; a hit in a class's members (directly,
through a closure, or through its subclasses) returns, otherwise the next
candidate is tried; exhaustion yields the unresolved result. -/
def search_locations (code : CodeRef) :
    List ClsT → Bool → Except PyErr (Option (PyFunc × Nat))
  | [], _ => .ok none
  | loc :: rest, superficial =>
    match search_members code loc (loc.members superficial) with
    | .error e => .error e
    | .ok (some r) => .ok (some r)
    | .ok none => search_locations code rest superficial

/-- The member loop of `search_locations`: for each member whose name matches
the frame's code name, an exact code match returns it; otherwise the closure
is searched (raising `TypeError` when the member has no closure), then the
subclasses superficially; with no hit the loop continues. -/
def search_members (code : CodeRef) :
    (loc : ClsT) → List (String × PyFunc) → Except PyErr (Option (PyFunc × Nat))
  | _, [] => .ok none
  | .mk i own inh subs, (mtdName, mtd) :: rest =>
    if code.name = mtdName then
      if code.id = mtd.codeId then .ok (some (mtd, i))
      else
        match search_closure mtdName code.id mtd.closure with
        | .error e => .error e
        | .ok (some f) => .ok (some (f, i))
        | .ok none =>
          match search_locations code subs true with
          | .error e => .error e
          | .ok (some r) => .ok (some r)
          | .ok none => search_members code (.mk i own inh subs) rest
    else search_members code (.mk i own inh subs) rest

end

/-- The frame data `_get_code_info` reads: the code name and identity, and
the class derived from the frame's first local binding (`none` when the code
has no positional parameters, so no `self`/`cls` candidate exists). -/
structure FrameT where
  codeName : String
  codeId : Nat
  firstArgCls : Option ClsT

/-- Embedding of `ExecutionTracer._get_code_info` (core.py): search the first
argument's class, if any, followed by the location hints. -/
def get_code_info (frame : FrameT) (location_hint : List ClsT) :
    Except PyErr (Option (PyFunc × Nat)) :=
  search_locations ⟨frame.codeName, frame.codeId⟩
    ((match frame.firstArgCls with
      | none => []
      | some c => [c]) ++ location_hint) false

/-!
Theorems for the capability resolver.
-/

/-- C1 counterexample: the claim says the frame consulted is the first frame
whose classified declaring type is non-null. On the trace whose first frame is
unclassifiable and whose second frame is a method of `Admin`, that reading
yields `(true, Admin)`, but the source's `is_calling_class_valid` consults only
the very first frame and denies with `(false, none)`. -/
theorem c1_counterexample :
    is_calling_class_valid [Admin] [none, some Admin] = (false, none) ∧
    is_calling_class_valid_specFirstClassified [Admin] [none, some Admin]
      = (true, some Admin) := by
  decide

/-- C1 (amended): `is_calling_class_valid S trace` consults only the first
traced frame. If that frame classifies to a class `C`, the resolver returns
`(true, C)` iff some member of `S` is `C` or an ancestor of `C`, and
`(false, C)` otherwise; if the first frame has no classifiable declaring class
(or the trace is empty), it returns `(false, none)` without consulting deeper
frames. -/
theorem c1_resolver_first_frame (S : List Cls) (trace : List (Option Cls)) :
    (trace.headD none = none → is_calling_class_valid S trace = (false, none)) ∧
    ∀ C, trace.headD none = some C →
      ((is_calling_class_valid S trace = (true, some C)) ↔
        ∃ c ∈ S, issubclass C c = true) ∧
      ((¬ ∃ c ∈ S, issubclass C c = true) →
        is_calling_class_valid S trace = (false, some C)) := by
  constructor
  · intro h
    unfold is_calling_class_valid
    rw [h]
  · intro C hC
    constructor
    · constructor
      · intro h
        unfold is_calling_class_valid at h
        rw [hC] at h
        have hany : (S.any fun c => issubclass C c) = true := congrArg Prod.fst h
        simpa [List.any_eq_true] using hany
      · intro h
        have hany : (S.any fun c => issubclass C c) = true := by
          simpa [List.any_eq_true] using h
        unfold is_calling_class_valid
        rw [hC]
        show (S.any fun c => issubclass C c, some C) = (true, some C)
        rw [hany]
    · intro h
      have hany : (S.any fun c => issubclass C c) = false := by
        rw [← Bool.not_eq_true, List.any_eq_true]
        simpa using h
      unfold is_calling_class_valid
      rw [hC]
      show (S.any fun c => issubclass C c, some C) = (false, some C)
      rw [hany]

/-- C1 witness: the amended resolver theorem applied at a concrete input: a
call from a method declared on `Admin` with `Admin` authorized. -/
theorem c1_witness :
    is_calling_class_valid [Admin] [some Admin] = (true, some Admin) := by
  exact ((c1_resolver_first_frame [Admin] [some Admin]).2 Admin rfl).1.mpr
    ⟨Admin, by decide, by decide⟩

/-!
Helper lemmas about permission-table lookup.
-/

/-- Lookup distributes over table concatenation, first table winning. -/
theorem lookupPerm_append (a b : PermTable) (k : String) :
    lookupPerm (a ++ b) k = (lookupPerm a k).or (lookupPerm b k) := by
  unfold lookupPerm
  rw [List.find?_append]
  cases a.find? fun p => p.1 = k <;> simp

/-- Lookup in a table filtered to the keys absent from `a`. -/
theorem lookupPerm_filter_isNone (a b : PermTable) (k : String) :
    lookupPerm (b.filter fun kv => (lookupPerm a kv.1).isNone) k =
      if (lookupPerm a k).isNone then lookupPerm b k else none := by
  induction b with
  | nil => cases h : (lookupPerm a k).isNone <;> simp [lookupPerm, h]
  | cons kv rest ih =>
    rw [List.filter_cons]
    by_cases hk : kv.1 = k
    · subst hk
      cases ha : (lookupPerm a kv.1).isNone
      · simp only [ha, Bool.false_eq_true, if_false]
        rw [ih, ha]
        simp
      · simp only [ha, if_true]
        have h1 : lookupPerm (kv :: rest.filter fun kv => (lookupPerm a kv.1).isNone) kv.1
            = some kv.2 := by
          unfold lookupPerm
          rw [List.find?_cons_of_pos _ (by simp)]
          rfl
        have h2 : lookupPerm (kv :: rest) kv.1 = some kv.2 := by
          unfold lookupPerm
          rw [List.find?_cons_of_pos _ (by simp)]
          rfl
        rw [h1, h2]
    · have hskip : ∀ l : PermTable, lookupPerm (kv :: l) k = lookupPerm l k := by
        intro l
        unfold lookupPerm
        rw [List.find?_cons_of_neg _ (by simp [hk])]
      cases ha : (lookupPerm a kv.1).isNone
      · simp only [ha, Bool.false_eq_true, if_false]
        rw [ih, hskip]
      · simp only [ha, if_true]
        rw [hskip, hskip, ih]

/-- Lookup commutes with adding the decorated class to every entry. -/
theorem lookupPerm_map_add (T : PermTable) (cls : Cls) (k : String) :
    lookupPerm (T.map fun kv => (kv.1, addClsSet kv.2 cls)) k
      = (lookupPerm T k).map fun s => addClsSet s cls := by
  unfold lookupPerm
  rw [List.find?_map]
  have hcomp : ((fun p : String × List Cls => decide (p.1 = k)) ∘
      fun kv : String × List Cls => (kv.1, addClsSet kv.2 cls))
      = fun p : String × List Cls => decide (p.1 = k) := rfl
  rw [hcomp]
  cases T.find? fun p : String × List Cls => decide (p.1 = k) <;> simp

/-- Membership in the set-style union of two key lists. -/
theorem mem_keysUnion (a b : List String) (k : String) :
    k ∈ keysUnion a b ↔ k ∈ a ∨ k ∈ b := by
  simp only [keysUnion, List.mem_append, List.mem_filter]
  by_cases h : k ∈ a
  · simp [h]
  · simp [h, List.elem_iff]

/-!
Helper lemmas for argument tailoring and the constructor chain.
-/

/-- A keyword-only call (`nargs = 0`) binds whenever the callable has a
`**kwargs` catch-all or every supplied keyword is among the declared names. -/
theorem callBinds_zero_ok (spec : FullArgSpec) (kw : Kwargs)
    (h : spec.varkw = true ∨ ∀ k ∈ kw, k ∈ spec.args ++ spec.kwonlyargs) :
    callBinds spec 0 kw = .ok () := by
  have h1 : ((spec.args.drop 1).take 0).any (fun p => kw.contains p) = false := by simp
  have h2 : (!spec.varkw && kw.any fun k => !((spec.args ++ spec.kwonlyargs).contains k))
      = false := by
    rcases h with h | h
    · simp [h]
    · cases hv : spec.varkw
      · simp only [hv, Bool.not_false, Bool.true_and]
        rw [List.any_eq_false]
        intro k hk
        have hc : (spec.args ++ spec.kwonlyargs).contains k = true :=
          List.elem_iff.mpr (h k hk)
        rw [hc]
        decide
      · simp [hv]
  unfold callBinds
  rw [h1, h2]
  simp

/-- The tailored load-step keywords are always accepted by the load spec. -/
theorem tailor_augmented_sub (aug : FullArgSpec) (i : Nat) (kw : Kwargs) :
    aug.varkw = true ∨
      ∀ k ∈ tailor_augmented_kwargs aug i kw, k ∈ aug.args ++ aug.kwonlyargs := by
  cases hv : aug.varkw
  · right
    intro k hk
    unfold tailor_augmented_kwargs at hk
    rw [hv] at hk
    simp only [Bool.false_eq_true, if_false] at hk
    have hmem := (List.mem_filter.mp hk).1
    rw [List.mem_append] at hmem ⊢
    rcases hmem with hmem | hmem
    · exact Or.inl (List.mem_of_mem_drop hmem)
    · exact Or.inr hmem
  · exact Or.inl rfl

/-- The tailored intended keywords of a keyword-only call are always accepted
by the intended spec. -/
theorem tailor_intended_sub (spec : FullArgSpec) (kw : Kwargs) :
    spec.varkw = true ∨
      ∀ k ∈ tailor_intended_kwargs spec 0 kw, k ∈ spec.args ++ spec.kwonlyargs := by
  cases hv : spec.varkw
  · right
    intro k hk
    unfold tailor_intended_kwargs at hk
    rw [hv] at hk
    simp only [Bool.false_eq_true, if_false, List.drop_zero] at hk
    exact (List.mem_filter.mp hk).1
  · exact Or.inl rfl

/-- Which keywords the tailored intended dictionary holds, for a keyword-only
call: exactly the supplied keywords the declared parameter list accepts, or
all supplied keywords under a `**kwargs` catch-all. -/
theorem mem_tailor_intended (spec : FullArgSpec) (kw : Kwargs) (k : String) :
    k ∈ tailor_intended_kwargs spec 0 kw ↔
      (if spec.varkw then k ∈ kw
       else k ∈ kw ∧ k ∈ spec.args ++ spec.kwonlyargs) := by
  unfold tailor_intended_kwargs
  cases hv : spec.varkw
  · simp only [Bool.false_eq_true, if_false, List.drop_zero, List.mem_filter]
    rw [and_comm]
    simp [List.elem_iff]
  · simp [hv]

/-- With no positional arguments the kwargs-mutation of `tailor_arguments` is
the identity. -/
theorem updatedKwargs_zero (spec : FullArgSpec) (i : Nat) (kw : Kwargs) :
    updatedKwargs spec i 0 kw = kw := by
  simp [updatedKwargs, dictUpdate]

/-!
Theorems about the permission-table merge on re-decoration.
-/

/-- C4 counterexample: decorating with key `"k"` authorized for `Admin`, on a
class whose previous lockable wrapper had declared `"k"` authorized for
`Guest`, yields the table entry `[Admin, Account]`: the earlier declaration's
`Guest` is dropped, whereas the union the claim describes would keep it. -/
theorem c4_counterexample :
    lookupPerm (LockableClassDecoratorData.init
        ⟨["k"], [("k", [Admin])], [("k", [Admin])]⟩ Account []
        (some ⟨["k"], [("k", [Guest])], [("k", [Guest])]⟩)).lock_permissions "k"
      = some [Admin, Account] ∧
    lookupPerm (mergePermissionsSpecUnion [("k", [Admin, Account])] [("k", [Guest])]) "k"
      = some [Admin, Account, Guest] ∧
    Guest ∉ [Admin, Account] := by
  decide

/-- C4 (amended): for the lockable aspect, re-decoration merges the previous
wrapper's tables by filling in only the keys the new decoration does not
declare: a key declared by both decorations keeps the new declaration's set
(with the newly decorated class added) and drops the old one; a key declared
only by the old decoration is carried over; the lock-key name set is the union
of both. For the alienatable aspect, re-decoration over a previous wrapper
with any declared friend entry raises `AttributeError` instead of merging. -/
theorem c4_merge_not_union (dec : LockableClassDecorator) (cls : Cls)
    (methodKeys : List String) (old : LockableClassDecoratorData) :
    (∀ k, lookupPerm (LockableClassDecoratorData.init dec cls methodKeys
          (some old)).lock_permissions k
        = match lookupPerm dec.lock_permissions k with
          | some s => some (addClsSet s cls)
          | none => lookupPerm old.lock_permissions k) ∧
    (∀ k, lookupPerm (LockableClassDecoratorData.init dec cls methodKeys
          (some old)).unlock_permissions k
        = match lookupPerm dec.unlock_permissions k with
          | some s => some (addClsSet s cls)
          | none => lookupPerm old.unlock_permissions k) ∧
    (∀ s, s ∈ (LockableClassDecoratorData.init dec cls methodKeys (some old)).locks
        ↔ s ∈ dec.locks ∨ s ∈ methodKeys ∨ s ∈ old.locks) ∧
    (∀ f (e : Option String × List Cls) (rest : FriendTable),
      AlienatableClassDecoratorData.init f (some (e :: rest))
        = .error (.attributeError "frozenset object has no attribute update")) := by
  refine ⟨?_, ?_, ?_, fun f e rest => rfl⟩
  · intro k
    have hL : (LockableClassDecoratorData.init dec cls methodKeys (some old)).lock_permissions
        = (dec.lock_permissions.map fun kv => (kv.1, addClsSet kv.2 cls))
          ++ old.lock_permissions.filter fun kv =>
              (lookupPerm (dec.lock_permissions.map fun kv =>
                (kv.1, addClsSet kv.2 cls)) kv.1).isNone := rfl
    rw [hL, lookupPerm_append, lookupPerm_filter_isNone, lookupPerm_map_add]
    cases lookupPerm dec.lock_permissions k <;> simp
  · intro k
    have hU : (LockableClassDecoratorData.init dec cls methodKeys (some old)).unlock_permissions
        = (dec.unlock_permissions.map fun kv => (kv.1, addClsSet kv.2 cls))
          ++ old.unlock_permissions.filter fun kv =>
              (lookupPerm (dec.unlock_permissions.map fun kv =>
                (kv.1, addClsSet kv.2 cls)) kv.1).isNone := rfl
    rw [hU, lookupPerm_append, lookupPerm_filter_isNone, lookupPerm_map_add]
    cases lookupPerm dec.unlock_permissions k <;> simp
  · intro s
    have hK : (LockableClassDecoratorData.init dec cls methodKeys (some old)).locks
        = keysUnion (keysUnion dec.locks methodKeys) old.locks := rfl
    rw [hK, mem_keysUnion, mem_keysUnion, or_assoc]

/-!
Theorems for the lock / unlock / locked scenario.
-/

/-- C5: for an `Account` class decorated with lock key `"admin"` authorized
for `Admin`, locking from a method declared on `Admin` succeeds and `locked`
then reports `true`; locking from a method declared on the unrelated `Guest`
leaves the lock set unchanged and `locked` still reports `false`, but the
exception raised on that deny path is a `TypeError` produced by the subscript
`calling_classes[0]`, not the `LockError` the claim describes. -/
theorem c5_lock_scenario :
    LockableClassDecorator.init (some [("admin", some [Admin])]) none
      = .ok ⟨["admin"], [("admin", [Admin])], [("admin", [Admin])]⟩ ∧
    (LockableWrapper.lock
        (LockableClassDecoratorData.init
          ⟨["admin"], [("admin", [Admin])], [("admin", [Admin])]⟩ Account [] none)
        [] "admin" [some Admin] = .ok ["admin"]) ∧
    (LockableWrapper.locked
        (LockableClassDecoratorData.init
          ⟨["admin"], [("admin", [Admin])], [("admin", [Admin])]⟩ Account [] none)
        ["admin"] "admin" = .ok true) ∧
    (runMutation
        (fun l => LockableWrapper.lock
          (LockableClassDecoratorData.init
            ⟨["admin"], [("admin", [Admin])], [("admin", [Admin])]⟩ Account [] none)
          l "admin" [some Guest]) []
      = ([], some (.typeError "type object is not subscriptable"))) ∧
    (LockableWrapper.locked
        (LockableClassDecoratorData.init
          ⟨["admin"], [("admin", [Admin])], [("admin", [Admin])]⟩ Account [] none)
        [] "admin" = .ok false) := by
  decide

/-!
Theorems for the view guards.
-/

/-- C6: any operation guarded by `locked_in_view` (freeze, melt, lock,
unlock), invoked with a `View` receiver, raises immediately and uniformly,
without forwarding to the wrapped method, and the instance's aspect state is
unchanged by the attempt. -/
theorem c6_view_blocks_mutations {σ : Type} (method : σ → Except PyErr σ) (s : σ) :
    runMutation (locked_in_view method .view) s
      = (s, some (.permissionError "ViewMethodNotCallable")) := rfl

/-- C9: a method guarded by the freezable method decorator, called through a
view, always raises `FrozenError`, even when the underlying instance is not
frozen, because `Freezable.View` fixes the `__frozen__` attribute to `True`;
by contrast the direct call with an unfrozen receiver forwards to the wrapped
method. -/
theorem c9_view_always_frozen {α : Type} (method : FreezableState → Except PyErr α)
    (s : FreezableState) (h : s.frozen = false) :
    freezable_wrapper method .view s = .error .frozenError ∧
    getattr_frozen .view s = true ∧
    freezable_wrapper method .direct s = method s := by
  refine ⟨rfl, rfl, ?_⟩
  simp [freezable_wrapper, getattr_frozen, h]

/-- C9 witness: the guarded-view theorem applied to a concrete unfrozen
instance and a concrete method. -/
theorem c9_witness :
    freezable_wrapper (fun _ => Except.ok (0 : Nat)) .view ⟨false⟩
      = .error .frozenError :=
  (c9_view_always_frozen (fun _ => Except.ok (0 : Nat)) ⟨false⟩ rfl).1

/-!
Theorems for the unlock-permission default.
-/

/-- C10: when the lockable class decorator is given `lock_permissions` but no
`unlock_permissions`, the unlock table defaults to the lock table: the two
tables are equal, so every key authorizes exactly the same classes to unlock
as to lock, and the equality persists through the wrapper data built from the
decorator. -/
theorem c10_unlock_defaults_to_lock (lp : List (String × Option (List Cls)))
    (dec : LockableClassDecorator)
    (h : LockableClassDecorator.init (some lp) none = .ok dec) :
    dec.unlock_permissions = dec.lock_permissions ∧
    (∀ k, lookupPerm dec.unlock_permissions k = lookupPerm dec.lock_permissions k) ∧
    ∀ cls methodKeys,
      (LockableClassDecoratorData.init dec cls methodKeys none).unlock_permissions
        = (LockableClassDecoratorData.init dec cls methodKeys none).lock_permissions := by
  have hdec : dec = ⟨lp.map (·.1),
      lp.filterMap fun kv => kv.2.map fun v => (kv.1, v),
      lp.filterMap fun kv => kv.2.map fun v => (kv.1, v)⟩ := by
    have h2 := h
    unfold LockableClassDecorator.init at h2
    exact (Except.ok.injEq _ _).mp h2 |>.symm
  subst hdec
  exact ⟨rfl, fun k => rfl, fun cls methodKeys => rfl⟩

/-- C10 witness: the default theorem applied to a concrete decorator with one
key. -/
theorem c10_witness :
    (⟨["admin"], [("admin", [Admin])], [("admin", [Admin])]⟩
      : LockableClassDecorator).unlock_permissions
    = (⟨["admin"], [("admin", [Admin])], [("admin", [Admin])]⟩
      : LockableClassDecorator).lock_permissions :=
  (c10_unlock_defaults_to_lock [("admin", some [Admin])] _ (by decide)).1

/-!
Theorems about the constructor chain.
-/

/-- C2 counterexample: a user class with constructor `__init__(self, a, b)`
wrapped by two stacked aspects, instantiated with one positional argument,
raises `TypeError`: the outer level's `tailor_arguments` mutates the shared
keyword dictionary to contain the name of the positionally supplied
parameter, and the innermost delegation then passes that argument both
positionally and by keyword, so the user constructor is never invoked with
the declared subset. -/
theorem c2_counterexample :
    wrapperInitChain ⟨["self", "a", "b"], [], false⟩
        [⟨0, ⟨["self", "locks"], [], false⟩⟩, ⟨1, ⟨["self", "frozen"], [], false⟩⟩]
        1 []
      = .error (.typeError "got multiple values for argument") := by
  decide

/-- C2 (amended): for every wrapper stack and every keyword-only
instantiation, construction succeeds, the user's original constructor is
invoked exactly once, and it receives exactly the supplied keywords its
declared parameter list accepts, all of them when it declares a `**kwargs`
catch-all; aspect-only keywords never reach it otherwise. (With stacked
aspects and positional arguments, construction instead raises `TypeError`,
per the counterexample.) -/
theorem c2_ctor_exactly_once_keyword_only (userSpec : FullArgSpec)
    (aspects : List Aspect) (kwargs : Kwargs) (hne : aspects ≠ []) :
    ∃ evts, wrapperInitChain userSpec aspects 0 kwargs = .ok evts ∧
      evts.filter isUserCtorEvent
        = [.userCtor 0 (tailor_intended_kwargs userSpec 0 kwargs)] ∧
      ∀ k, k ∈ tailor_intended_kwargs userSpec 0 kwargs ↔
        (if userSpec.varkw then k ∈ kwargs
         else k ∈ kwargs ∧ k ∈ userSpec.args ++ userSpec.kwonlyargs) := by
  induction aspects with
  | nil => exact absurd rfl hne
  | cons a rest ih =>
    have hload : callBinds a.load_spec 0
        (tailor_augmented_kwargs a.load_spec 1 kwargs) = .ok () :=
      callBinds_zero_ok _ _ (tailor_augmented_sub _ _ _)
    cases rest with
    | nil =>
      have hctor : callBinds userSpec 0 (tailor_intended_kwargs userSpec 0 kwargs)
          = .ok () :=
        callBinds_zero_ok _ _ (tailor_intended_sub _ _)
      refine ⟨[.load a.tag (tailor_augmented_kwargs a.load_spec 1 kwargs),
               .userCtor 0 (tailor_intended_kwargs userSpec 0 kwargs)], ?_, ?_,
               fun k => mem_tailor_intended userSpec kwargs k⟩
      · simp [wrapperInitChain, updatedKwargs_zero, hload, hctor]
      · simp [isUserCtorEvent]
    | cons b rest2 =>
      obtain ⟨evts, h1, h2, h3⟩ := ih (by simp)
      refine ⟨.load a.tag (tailor_augmented_kwargs a.load_spec 1 kwargs) :: evts,
              ?_, ?_, h3⟩
      · simp [wrapperInitChain, updatedKwargs_zero, hload, h1]
      · simp [isUserCtorEvent, h2]

/-- C2 witness: the keyword-only constructor theorem applied to a single
freezable-style aspect over `__init__(self, a)`, instantiated with the user
keyword `a` and the aspect-only keyword `frozen`. -/
theorem c2_witness :
    ∃ evts, wrapperInitChain ⟨["self", "a"], [], false⟩
        [⟨0, ⟨["self", "frozen"], [], false⟩⟩] 0 ["a", "frozen"] = .ok evts ∧
      evts.filter isUserCtorEvent
        = [.userCtor 0 (tailor_intended_kwargs ⟨["self", "a"], [], false⟩ 0
            ["a", "frozen"])] ∧
      ∀ k, k ∈ tailor_intended_kwargs ⟨["self", "a"], [], false⟩ 0 ["a", "frozen"] ↔
        (if (⟨["self", "a"], [], false⟩ : FullArgSpec).varkw then k ∈ ["a", "frozen"]
         else k ∈ ["a", "frozen"] ∧
           k ∈ (⟨["self", "a"], [], false⟩ : FullArgSpec).args
             ++ (⟨["self", "a"], [], false⟩ : FullArgSpec).kwonlyargs) :=
  c2_ctor_exactly_once_keyword_only ⟨["self", "a"], [], false⟩
    [⟨0, ⟨["self", "frozen"], [], false⟩⟩] ["a", "frozen"] (by simp)

/-- C3: whenever the composed constructor chain completes, the observed call
sequence runs the aspect load steps outermost first, in stack order, contains
exactly one user-constructor call, and that call is the last event of the
chain: the innermost call is always the original user-defined constructor. -/
theorem c3_loads_outer_to_inner (userSpec : FullArgSpec) (aspects : List Aspect)
    (nargs : Nat) (kwargs : Kwargs) (evts : List InitEvent)
    (h : wrapperInitChain userSpec aspects nargs kwargs = .ok evts) :
    evts.filterMap loadTag = aspects.map (fun a => a.tag) ∧
    (evts.filter isUserCtorEvent).length = 1 ∧
    ∃ n kw, evts.getLast? = some (.userCtor n kw) := by
  induction aspects generalizing kwargs evts with
  | nil =>
    unfold wrapperInitChain at h
    cases hcb : callBinds userSpec nargs kwargs with
    | error e => rw [hcb] at h; exact absurd h (by simp)
    | ok u =>
      cases u
      rw [hcb] at h
      have hevts : evts = [.userCtor nargs kwargs] := by
        simpa using h.symm
      subst hevts
      exact ⟨rfl, rfl, nargs, kwargs, rfl⟩
  | cons a rest ih =>
    cases rest with
    | nil =>
      simp only [wrapperInitChain] at h
      cases hcb : callBinds a.load_spec 0
          (tailor_augmented_kwargs a.load_spec 1 (updatedKwargs userSpec 1 nargs kwargs)) with
      | error e => simp only [hcb] at h; exact Except.noConfusion h
      | ok u =>
        cases u
        simp only [hcb] at h
        cases hcb2 : callBinds userSpec nargs (tailor_intended_kwargs userSpec nargs kwargs) with
        | error e => simp only [hcb2] at h; exact Except.noConfusion h
        | ok u2 =>
          cases u2
          simp only [hcb2] at h
          have hevts : evts
              = [.load a.tag (tailor_augmented_kwargs a.load_spec 1
                  (updatedKwargs userSpec 1 nargs kwargs)),
                 .userCtor nargs (tailor_intended_kwargs userSpec nargs kwargs)] := by
            simpa using h.symm
          subst hevts
          exact ⟨rfl, rfl, nargs, tailor_intended_kwargs userSpec nargs kwargs, rfl⟩
    | cons b rest2 =>
      simp only [wrapperInitChain] at h
      cases hcb : callBinds a.load_spec 0
          (tailor_augmented_kwargs a.load_spec 1 (updatedKwargs userSpec 1 nargs kwargs)) with
      | error e => simp only [hcb] at h; exact Except.noConfusion h
      | ok u =>
        cases u
        simp only [hcb] at h
        cases hrec : wrapperInitChain userSpec (b :: rest2) nargs
            (updatedKwargs userSpec 1 nargs kwargs) with
        | error e => simp only [hrec] at h; exact Except.noConfusion h
        | ok inner =>
          simp only [hrec] at h
          have hevts : evts
              = .load a.tag (tailor_augmented_kwargs a.load_spec 1
                  (updatedKwargs userSpec 1 nargs kwargs)) :: inner := by
            simpa using h.symm
          subst hevts
          obtain ⟨g1, g2, n, kw, g3⟩ := ih _ _ hrec
          refine ⟨?_, ?_, ?_⟩
          · simp [loadTag, g1]
          · simp [isUserCtorEvent, g2]
          · cases inner with
            | nil => simp at g3
            | cons c l =>
              exact ⟨n, kw, by rw [List.getLast?_cons_cons]; exact g3⟩

/-!
Theorems for the classification cache.
-/

/-- Reading back a just-assigned cache key. -/
theorem cacheLookup_cacheInsert {α : Type} (d : CacheDict α) (code : Nat)
    (e : CacheEntry α) :
    cacheLookup (cacheInsert d code e) code = some e := by
  induction d with
  | nil => simp [cacheInsert, cacheLookup]
  | cons p rest ih =>
    by_cases h : p.1 = code
    · simp [cacheInsert, h, cacheLookup]
    · unfold cacheInsert
      rw [if_neg h]
      unfold cacheLookup
      rw [List.find?_cons_of_neg _ (by simp [h])]
      exact ih

/-- Reading a key whose referents were collected yields the same entry with
`weakKill` applied. -/
theorem cacheLookup_kill {α : Type} (d : CacheDict α) (code : Nat) :
    cacheLookup (d.map fun p => if p.1 = code then (p.1, weakKill p.2) else p) code
      = (cacheLookup d code).map weakKill := by
  induction d with
  | nil => simp [cacheLookup]
  | cons p rest ih =>
    by_cases h : p.1 = code
    · simp only [List.map_cons, if_pos h]
      unfold cacheLookup
      rw [List.find?_cons_of_pos _ (by simp [h]), List.find?_cons_of_pos _ (by simp [h])]
      rfl
    · simp only [List.map_cons, if_neg h]
      unfold cacheLookup
      rw [List.find?_cons_of_neg _ (by simp [h]), List.find?_cons_of_neg _ (by simp [h])]
      exact ih

/-- Reading the cache right after it recorded a classification result serves
that result. -/
theorem get_code_info_from_cache_update {M L : Type} (c : TracerCache M L)
    (code : Nat) (r : Option (M × L)) :
    get_code_info_from_cache
        (update_code_info_cache c code (r.map (·.1)) (r.map (·.2))) code
      = .ok (r.map (·.1), r.map (·.2)) := by
  cases r with
  | none =>
    unfold update_code_info_cache get_code_info_from_cache
    simp [cacheLookup_cacheInsert]
  | some p =>
    unfold update_code_info_cache get_code_info_from_cache
    simp [cacheLookup_cacheInsert]

/-- After the referents cached for `code` are collected, the next tracer step
reclassifies instead of serving the dead entry. -/
theorem tracerStep_kill_reclassifies {M L : Type} (classify : Nat → Option (M × L))
    (X : TracerCache M L) (code : Nat) (m : M)
    (hm : cacheLookup X.code_method_cache code = some (some (some m))) :
    (tracerStep classify (killCode X code) code).1
      = ((classify code).map (·.1), (classify code).map (·.2)) := by
  have hmk : cacheLookup (killCode X code).code_method_cache code = some (some none) := by
    show cacheLookup
        (X.code_method_cache.map fun p => if p.1 = code then (p.1, weakKill p.2) else p)
        code = _
    rw [cacheLookup_kill, hm]
    rfl
  have herr : get_code_info_from_cache (killCode X code) code = .error () := by
    unfold get_code_info_from_cache
    rw [hmk]
    cases hloc : cacheLookup (killCode X code).code_location_cache code with
    | none => rfl
    | some lr => rfl
  simp [tracerStep, herr]

/-- C7: classifying the same code identity a second time serves the cached
entry, returning the identical result without touching the cache; and once
the cached referents have been garbage collected, the entry is treated as
invalid and the step reclassifies from the ground truth rather than returning
a stale reference. -/
theorem c7_cache_idempotent_and_invalidated {M L : Type}
    (classify : Nat → Option (M × L)) (c : TracerCache M L) (code : Nat) :
    tracerStep classify (tracerStep classify c code).2 code
      = tracerStep classify c code ∧
    ∀ m, cacheLookup (tracerStep classify c code).2.code_method_cache code
        = some (some (some m)) →
      (tracerStep classify (killCode (tracerStep classify c code).2 code) code).1
        = ((classify code).map (·.1), (classify code).map (·.2)) := by
  constructor
  · cases hg : get_code_info_from_cache c code with
    | ok r =>
      have h1 : tracerStep classify c code = (r, c) := by simp [tracerStep, hg]
      rw [h1]
      exact h1
    | error e =>
      have h1 : tracerStep classify c code
          = (((classify code).map (·.1), (classify code).map (·.2)),
             update_code_info_cache c code ((classify code).map (·.1))
               ((classify code).map (·.2))) := by
        simp [tracerStep, hg]
      rw [h1]
      have h2 := get_code_info_from_cache_update c code (classify code)
      simp [tracerStep, h2]
  · intro m hm
    exact tracerStep_kill_reclassifies classify _ code m hm

/-- C7 witness: the cache theorem applied to an empty cache and a concrete
classification function. -/
theorem c7_witness :
    (tracerStep (fun n => if n = 1 then some ((10 : Nat), (20 : Nat)) else none)
        (tracerStep (fun n => if n = 1 then some ((10 : Nat), (20 : Nat)) else none)
          ⟨[], []⟩ 1).2 1
      = tracerStep (fun n => if n = 1 then some ((10 : Nat), (20 : Nat)) else none)
          ⟨[], []⟩ 1) ∧
    (tracerStep (fun n => if n = 1 then some ((10 : Nat), (20 : Nat)) else none)
        (killCode (tracerStep (fun n => if n = 1 then some ((10 : Nat), (20 : Nat)) else none)
          ⟨[], []⟩ 1).2 1) 1).1
      = (((fun n => if n = 1 then some ((10 : Nat), (20 : Nat)) else none) 1).map (·.1),
         ((fun n => if n = 1 then some ((10 : Nat), (20 : Nat)) else none) 1).map (·.2)) := by
  have h := c7_cache_idempotent_and_invalidated
    (fun n => if n = 1 then some ((10 : Nat), (20 : Nat)) else none) ⟨[], []⟩ 1
  exact ⟨h.1, h.2 10 (by decide)⟩

/-!
Theorems for the call-frame classifier.
-/

/-- C8: the classifier is not total. On a frame whose code is named `f` (code
id 1) and whose first argument is an instance of a class declaring a method
`f` with different code (id 2) and no closure, `_get_code_info` raises
`TypeError` while iterating the `None` closure, instead of returning the
unresolved result. When every name comparison fails, and when the frame has
no `self`/`cls` candidate and no hints, the search does return the unresolved
`(None, None)`, which the capability resolver treats as deny. -/
theorem c8_classifier_not_total :
    get_code_info ⟨"f", 1, some (.mk 0 [("f", .mk "f" 2 none)] [] [])⟩ []
      = .error (.typeError "argument of type NoneType is not iterable") ∧
    get_code_info ⟨"g", 5, some (.mk 1 [] [] [])⟩ [] = .ok none ∧
    get_code_info ⟨"h", 7, none⟩ [] = .ok none ∧
    is_calling_class_valid [Admin] [none] = (false, none) := by
  refine ⟨?_, ?_, ?_, rfl⟩
  · simp [get_code_info, search_locations, search_members, search_closure,
      ClsT.members, PyFunc.codeId, PyFunc.closure]
  · simp [get_code_info, search_locations, search_members, ClsT.members]
  · simp [get_code_info, search_locations]

/-- C3 witness: the ordering theorem applied to a concrete one-aspect chain. -/
theorem c3_witness :
    ∃ n kw, ([InitEvent.load 0 [], InitEvent.userCtor 0 ["a"]] : List InitEvent).getLast?
      = some (.userCtor n kw) :=
  (c3_loads_outer_to_inner ⟨["self", "a"], [], false⟩
    [⟨0, ⟨["self", "frozen"], [], false⟩⟩] 0 ["a"]
    [InitEvent.load 0 [], InitEvent.userCtor 0 ["a"]] (by decide)).2.2

end Frozen
